import Mathlib

/-!
Verification of the analysis-orchestration pipeline of a static code-quality
analyzer (language classifier, concurrent stage scheduler, result aggregator,
scoring engine, diff engine).

Shallow embedding conventions:
* JavaScript numbers are modelled as `ℚ` (all arithmetic appearing in the
  modelled code is decimal-exact), counts and millisecond times as `ℕ`.
* The cooperative-concurrency scheduler (`ParallelStage.run`) is modelled
  deterministically: every registered task carries the time `duration` (ms)
  at which its deferred computation settles, and races between promises are
  decided by comparing settle times.  A tie between a task timer and the
  later-registered stage guard is resolved in favour of the task, whose
  timer was registered first.
* Fallible lookups return `Option`.
-/

namespace CodeAnalyzer

/-! ## Shared data model (detection/types.ts, engine/types.ts) -/

inductive SupportedLanguage
  | javascript | typescript | python | java | c | cpp
  deriving DecidableEq, Repr

/-- `DetectionMethod`; the source string "syntax" is rendered `syntaxBased`. -/
inductive DetectionMethod
  | extension | shebang | syntaxBased | unknown
  deriving DecidableEq, Repr

/-- `DetectionResult`; `language = none` models the string "unknown". -/
structure DetectionResult where
  language : Option SupportedLanguage
  confidence : ℚ
  method : DetectionMethod
  deriving DecidableEq, Repr

inductive IssueSeverity
  | error | warning | info
  deriving DecidableEq, Repr

inductive IssueCategory
  | bug | security | complexity | style | redundancy
  deriving DecidableEq, Repr

/-- `CodeIssue` (detection/types.ts). Optional fields are `Option`s. -/
structure CodeIssue where
  id : String
  category : IssueCategory
  severity : IssueSeverity
  message : String
  line : Option Nat
  column : Option Nat
  suggestion : Option String
  deriving DecidableEq, Repr

/-- `FunctionComplexity` (complexity/complexity.ts), as consumed by the
aggregator. -/
structure FunctionComplexity where
  name : String
  line : Nat
  cyclomaticComplexity : Nat
  length : Nat
  nestingDepth : Nat
  warnings : List String
  deriving DecidableEq, Repr

/-- `DuplicateFunction` (redundancy/redundancy.ts). -/
structure DuplicateFunction where
  name : String
  line : Nat
  duplicateOf : String
  deriving DecidableEq, Repr

/-- `FormattingResult` (detection/formatter.ts), at the interface boundary. -/
structure FormattingResult where
  formatted : String
  diff : String
  changesCount : Nat
  deriving DecidableEq, Repr

/-- The dynamic (`unknown`-typed) payload a stage task can fulfil with; the
aggregator casts it per label to one of these shapes. -/
inductive StageValue
  | issues (issues : List CodeIssue)
  | complexity (functions : List FunctionComplexity)
  | redundancy (duplicates : List DuplicateFunction)
  | formatting (result : FormattingResult)
  deriving DecidableEq, Repr

/-- A thrown/rejected JavaScript value: `isError` records whether it is an
`Error` instance, `message` its message. -/
structure JSError where
  isError : Bool
  message : String
  deriving DecidableEq, Repr

inductive StageStatus
  | fulfilled | rejected | timeout
  deriving DecidableEq, Repr

/-- `StageResult` (engine/types.ts). -/
structure StageResult where
  label : String
  status : StageStatus
  value : Option StageValue
  error : Option JSError
  durationMs : Nat
  deriving DecidableEq, Repr

/-! ## String primitives

Kernel-computable models of the JavaScript/stdlib string operations the
embedded code uses, written over the character list of a `String`. -/

/-- `s.split(c)` for a one-character separator. -/
def splitOnChar (c : Char) : List Char → List (List Char)
  | [] => [[]]
  | x :: xs =>
    let rest := splitOnChar c xs
    if x = c then [] :: rest
    else
      match rest with
      | [] => [[x]]
      | r :: rs => (x :: r) :: rs

/-- `s.split(c)` on strings. -/
def strSplitOnChar (c : Char) (s : String) : List String :=
  (splitOnChar c s.data).map (fun cs => ⟨cs⟩)

/-- `s.trim()`: strip whitespace from both ends. -/
def strTrim (s : String) : String :=
  ⟨((s.data.dropWhile Char.isWhitespace).reverse.dropWhile Char.isWhitespace).reverse⟩

/-- `s.toLowerCase()`. -/
def strToLower (s : String) : String :=
  ⟨s.data.map Char.toLower⟩

/-- `s.slice(0, n)`: the first `n` characters. -/
def strTake (s : String) (n : Nat) : String :=
  ⟨s.data.take n⟩

/-- `s.startsWith(pre)`. -/
def startsWithStr (s pre : String) : Bool :=
  pre.data.isPrefixOf s.data

/-- Substring occurrence on character lists. -/
def containsSub : List Char → List Char → Bool
  | [], pat => pat.isEmpty
  | x :: rest, pat => pat.isPrefixOf (x :: rest) || containsSub rest pat

/-- Whether `pat` occurs in `s` as a substring. -/
def containsStr (s pat : String) : Bool :=
  containsSub s.data pat.data

/-! ## StageScheduler (engine/task-runner.ts, `ParallelStage`) -/

def DEFAULT_TASK_TIMEOUT_MS : Nat := 8000

def DEFAULT_STAGE_TIMEOUT_MS : Nat := 15000

/-- Message of the rejection produced by `timeoutPromise(ms, label)`. -/
def timeoutMessage (ms : Nat) (label : String) : String :=
  "[timeout] stage \"" ++ label ++ "\" exceeded " ++ toString ms ++ "ms"

/-- What a registered task's deferred computation does when it settles:
fulfil with a value, or throw synchronously / reject asynchronously. -/
inductive TaskBehavior
  | ok (v : StageValue)
  | throw (e : JSError)
  deriving DecidableEq, Repr

/-- A task registered with `ParallelStage.add`, together with the time (ms
after stage start) at which its computation settles. -/
structure TaskEntry where
  label : String
  duration : Nat
  behavior : TaskBehavior
  deriving DecidableEq, Repr

instance : Inhabited TaskEntry := ⟨⟨"", 0, TaskBehavior.ok (StageValue.issues [])⟩⟩

instance : Inhabited StageResult := ⟨⟨"", StageStatus.fulfilled, none, none, 0⟩⟩

/-- The per-task wrapper built inside `ParallelStage.run`: races the task
against `timeoutPromise(taskMs, label)` and folds fulfilment/rejection into a
`StageResult`.  The rejection-status branch mirrors
`err instanceof Error && err.message.startsWith("[timeout]") ? "timeout" : "rejected"`. -/
def wrapTask (taskMs : Nat) (t : TaskEntry) : StageResult :=
  if taskMs < t.duration then
    { label := t.label
      status := StageStatus.timeout
      value := none
      error := some ⟨true, timeoutMessage taskMs t.label⟩
      durationMs := taskMs }
  else
    match t.behavior with
    | TaskBehavior.ok v =>
        { label := t.label, status := StageStatus.fulfilled, value := some v
          error := none, durationMs := t.duration }
    | TaskBehavior.throw e =>
        { label := t.label
          status :=
            if e.isError && startsWithStr e.message "[timeout]" then
              StageStatus.timeout
            else StageStatus.rejected
          value := none
          error := some e
          durationMs := t.duration }

/-- Time at which the wrapped promise of task `t` settles: its own settle
time, cut off by the per-task timeout timer. -/
def taskSettleTime (taskMs : Nat) (t : TaskEntry) : Nat :=
  min t.duration taskMs

/-- Time at which `Promise.all(wrappedTasks)` settles (0 for an empty batch). -/
def stageSettleTime (tasks : List TaskEntry) (taskMs : Nat) : Nat :=
  (tasks.map (taskSettleTime taskMs)).foldr max 0

/-- `ParallelStage.run(opts)`: the batch of wrapped tasks is raced against the
stage guard `timeoutPromise(stageMs, "ParallelStage").catch(() => [])`.  If
every wrapped task has settled by `stageMs` the settled outcomes are returned;
otherwise the guard wins the race and the result is the empty list. -/
def ParallelStage.run (tasks : List TaskEntry) (taskTimeoutMs stageTimeoutMs : Nat) :
    List StageResult :=
  if stageSettleTime tasks taskTimeoutMs ≤ stageTimeoutMs then
    tasks.map (wrapTask taskTimeoutMs)
  else []

/-! ## ResultAggregator (engine/aggregator.ts) -/

/-- The dedup key used by the aggregator's generic `deduplicate`:
the template string `line ?? 0` ++ ":" ++ `message`. -/
def dedupKey (issue : CodeIssue) : String :=
  toString (issue.line.getD 0) ++ ":" ++ issue.message

/-- The `seen`-set filter loop inside `deduplicate`, with the set of already
seen keys made explicit. -/
def dedupGo (seen : List String) : List CodeIssue → List CodeIssue
  | [] => []
  | issue :: rest =>
    if dedupKey issue ∈ seen then dedupGo seen rest
    else issue :: dedupGo (dedupKey issue :: seen) rest

/-- `deduplicate`: keep the first issue of each `(line ?? 0, message)` key. -/
def deduplicate (issues : List CodeIssue) : List CodeIssue :=
  dedupGo [] issues

/-- `deduplicateSecurity(semgrep, osv, regexSecurity)`: suppress regex
findings on a line already flagged by semgrep, then apply the generic
dedup to `semgrep ++ osv ++ filteredRegex`. -/
def deduplicateSecurity (semgrep osv regexSecurity : List CodeIssue) :
    List CodeIssue :=
  let semgrepLines := (semgrep.filter (fun i => i.line.isSome)).filterMap (fun i => i.line)
  let filteredRegex := regexSecurity.filter (fun i =>
    match i.line with
    | none => true
    | some l => decide (l ∉ semgrepLines))
  deduplicate (semgrep ++ osv ++ filteredRegex)

/-- `new Map(results.map(r => [r.label, r])).get(label)`: the JS `Map`
constructor lets later entries overwrite earlier ones, so lookup returns the
last result carrying the label. -/
def byLabelGet (results : List StageResult) (label : String) : Option StageResult :=
  results.reverse.find? (fun r => r.label = label)

/-- `getValue<CodeIssue[]>(r, [])`: fulfilled issue-list payload or the
fallback; a missing (`?? fallback`) or differently-shaped payload falls back. -/
def getIssuesValue (r : Option StageResult) : List CodeIssue :=
  match r with
  | none => []
  | some res =>
    if res.status = StageStatus.fulfilled then
      match res.value with
      | some (StageValue.issues issues) => issues
      | _ => []
    else []

/-- `getValue<{functions}>(r, {functions: []})` followed by `?? []`. -/
def getComplexityValue (r : Option StageResult) : List FunctionComplexity :=
  match r with
  | none => []
  | some res =>
    if res.status = StageStatus.fulfilled then
      match res.value with
      | some (StageValue.complexity fns) => fns
      | _ => []
    else []

/-- `getValue<{duplicates}>(r, {duplicates: []})` followed by `?? []`. -/
def getRedundancyValue (r : Option StageResult) : List DuplicateFunction :=
  match r with
  | none => []
  | some res =>
    if res.status = StageStatus.fulfilled then
      match res.value with
      | some (StageValue.redundancy dups) => dups
      | _ => []
    else []

/-- `getValue<FormattingResult>(r, {formatted:"", diff:"", changesCount:0})`. -/
def getFormattingValue (r : Option StageResult) : FormattingResult :=
  match r with
  | none => ⟨"", "", 0⟩
  | some res =>
    if res.status = StageStatus.fulfilled then
      match res.value with
      | some (StageValue.formatting f) => f
      | _ => ⟨"", "", 0⟩
    else ⟨"", "", 0⟩

/-- `complexityFunctionsToIssues`: one warning issue per recorded warning,
plus a deep-nesting issue for warning-free functions with depth > 3. -/
def complexityFunctionsToIssues (fns : List FunctionComplexity) : List CodeIssue :=
  fns.flatMap (fun fn =>
    (fn.warnings.map (fun warning =>
      { id := "cplx-" ++ fn.name ++ "-L" ++ toString fn.line
        category := IssueCategory.complexity
        severity := IssueSeverity.warning
        message := "Function \x27" ++ fn.name ++ "\x27: " ++ warning ++
          " (cyclomatic: " ++ toString fn.cyclomaticComplexity ++
          ", lines: " ++ toString fn.length ++
          ", nesting: " ++ toString fn.nestingDepth ++ ")"
        line := some fn.line
        column := none
        suggestion := some "Refactor into smaller, focused functions." : CodeIssue })) ++
    (if fn.nestingDepth > 3 && fn.warnings.length = 0 then
      [{ id := "cplx-nest-" ++ fn.name ++ "-L" ++ toString fn.line
         category := IssueCategory.complexity
         severity := IssueSeverity.warning
         message := "Function \x27" ++ fn.name ++ "\x27 has nesting depth " ++
           toString fn.nestingDepth ++ " (recommended max: 3)."
         line := some fn.line
         column := none
         suggestion := some "Extract inner blocks into named helper functions." }]
    else []))

/-- `duplicatesToIssues`: one redundancy warning per duplicate record. -/
def duplicatesToIssues (duplicates : List DuplicateFunction) : List CodeIssue :=
  (duplicates.enum).map (fun p =>
    { id := "redundancy-dup-" ++ toString p.1 ++ "-L" ++ toString p.2.line
      category := IssueCategory.redundancy
      severity := IssueSeverity.warning
      message := "\x27" ++ p.2.name ++ "\x27 (L" ++ toString p.2.line ++
        ") is a duplicate of \x27" ++ p.2.duplicateOf ++ "\x27."
      line := some p.2.line
      column := none
      suggestion := some "Extract shared logic into a single reusable function." })

/-- `ComplexityMetrics` (engine/types.ts); `decisionPoints` sums
`cyclomaticComplexity - 1` over functions, in `ℤ` as in JS arithmetic. -/
structure ComplexityMetrics where
  decisionPoints : Int
  maxDepth : Nat
  issues : List CodeIssue
  functions : List FunctionComplexity
  deriving DecidableEq, Repr

structure RedundancyReport where
  duplicateCount : Nat
  issues : List CodeIssue
  duplicates : List DuplicateFunction
  deriving DecidableEq, Repr

/-- `AggregatedResult` (engine/types.ts); `stageTiming` is the insertion-order
association list of the `Record<string, number>` (later labels overwrite). -/
structure AggregatedResult where
  issues : List CodeIssue
  securityIssues : List CodeIssue
  complexityMetrics : ComplexityMetrics
  redundancy : RedundancyReport
  formatting : FormattingResult
  stageTiming : List (String × Nat)
  deriving DecidableEq, Repr

/-- `aggregate(results)` (engine/aggregator.ts). -/
def aggregate (results : List StageResult) : AggregatedResult :=
  let bugLintEngineIssues := getIssuesValue (byLabelGet results "bugLintEngine")
  let semgrepIssues := getIssuesValue (byLabelGet results "semgrepEngine")
  let teamSecurityIssues := getIssuesValue (byLabelGet results "teamSecurityEngine")
  let baseAnalyzerIssues := getIssuesValue (byLabelGet results "baseAnalyzer")
  let complexityFns := getComplexityValue (byLabelGet results "complexityEngine")
  let complexityIssues := complexityFunctionsToIssues complexityFns
  let duplicates := getRedundancyValue (byLabelGet results "redundancyEngine")
  let redundancyIssues := duplicatesToIssues duplicates
  let formatting := getFormattingValue (byLabelGet results "formatter")
  let complexityMetrics : ComplexityMetrics :=
    { decisionPoints := complexityFns.foldl
        (fun sum f => sum + (f.cyclomaticComplexity : Int) - 1) 0
      maxDepth := complexityFns.foldl (fun mx f => max mx f.nestingDepth) 0
      issues := complexityIssues
      functions := complexityFns }
  let redundancy : RedundancyReport :=
    { duplicateCount := duplicates.length
      issues := redundancyIssues
      duplicates := duplicates }
  let allIssues := deduplicate
    (baseAnalyzerIssues ++ bugLintEngineIssues ++ complexityIssues ++ redundancyIssues)
  let securityIssues := deduplicateSecurity semgrepIssues [] teamSecurityIssues
  let nonSecurityIssues := allIssues.filter (fun i => i.category ≠ IssueCategory.security)
  { issues := nonSecurityIssues
    securityIssues := securityIssues
    complexityMetrics := complexityMetrics
    redundancy := redundancy
    formatting := formatting
    stageTiming := results.map (fun r => (r.label, r.durationMs)) }

/-! ## ScoringEngine (engine/scoring-engine.ts) -/

structure AnalysisWeights where
  bug : ℚ
  security : ℚ
  complexity : ℚ
  redundancy : ℚ
  style : ℚ
  deriving DecidableEq, Repr

def DEFAULT_WEIGHTS : AnalysisWeights :=
  { bug := 35/100, security := 30/100, complexity := 15/100
    redundancy := 10/100, style := 10/100 }

/-- `Partial<AnalysisWeights>`: each field optionally overridden. -/
structure WeightOverrides where
  bug : Option ℚ
  security : Option ℚ
  complexity : Option ℚ
  redundancy : Option ℚ
  style : Option ℚ
  deriving DecidableEq, Repr

def noOverrides : WeightOverrides := ⟨none, none, none, none, none⟩

/-- `{ ...DEFAULT_WEIGHTS, ...weightOverrides }`. -/
def mergeWeights (o : WeightOverrides) : AnalysisWeights :=
  { bug := o.bug.getD DEFAULT_WEIGHTS.bug
    security := o.security.getD DEFAULT_WEIGHTS.security
    complexity := o.complexity.getD DEFAULT_WEIGHTS.complexity
    redundancy := o.redundancy.getD DEFAULT_WEIGHTS.redundancy
    style := o.style.getD DEFAULT_WEIGHTS.style }

/-- `count(issues, cat, sev)`: issues matching category and severity. -/
def countIssues (issues : List CodeIssue) (cat : IssueCategory)
    (sev : IssueSeverity) : Nat :=
  (issues.filter (fun i => i.category = cat ∧ i.severity = sev)).length

structure PenaltyBreakdown where
  bug : ℚ
  security : ℚ
  complexity : ℚ
  redundancy : ℚ
  style : ℚ
  deriving DecidableEq, Repr

/-- `PipelineSnapshot`; the wall-clock ISO timestamp is passed in as `now`. -/
structure PipelineSnapshot where
  timestamp : String
  score : ℚ
  issueCount : Nat
  deriving DecidableEq, Repr

structure ScoringResult where
  score : ℚ
  weights : AnalysisWeights
  penaltyBreakdown : PenaltyBreakdown
  snapshot : PipelineSnapshot
  deriving DecidableEq, Repr

/-- `score(aggregated, weightOverrides)` (engine/scoring-engine.ts); `now`
stands for `new Date().toISOString()`. -/
def score (aggregated : AggregatedResult) (weightOverrides : WeightOverrides)
    (now : String) : ScoringResult :=
  let weights := mergeWeights weightOverrides
  let all := aggregated.issues ++ aggregated.securityIssues ++
    aggregated.complexityMetrics.issues ++ aggregated.redundancy.issues
  let penaltyBreakdown : PenaltyBreakdown :=
    { bug := min 1 ((countIssues all IssueCategory.bug IssueSeverity.error : ℚ) * (15/100) +
        (countIssues all IssueCategory.bug IssueSeverity.warning : ℚ) * (5/100))
      security := min 1 ((countIssues all IssueCategory.security IssueSeverity.error : ℚ) * (20/100) +
        (countIssues all IssueCategory.security IssueSeverity.warning : ℚ) * (8/100))
      complexity := min 1 ((countIssues all IssueCategory.complexity IssueSeverity.error : ℚ) * (10/100) +
        (countIssues all IssueCategory.complexity IssueSeverity.warning : ℚ) * (4/100))
      redundancy := min 1 ((countIssues all IssueCategory.redundancy IssueSeverity.warning : ℚ) * (4/100))
      style := min 1 ((countIssues all IssueCategory.style IssueSeverity.warning : ℚ) * (3/100) +
        (countIssues all IssueCategory.style IssueSeverity.info : ℚ) * (1/100)) }
  let finalScore := max 0
    (1 - weights.bug * penaltyBreakdown.bug
       - weights.security * penaltyBreakdown.security
       - weights.complexity * penaltyBreakdown.complexity
       - weights.redundancy * penaltyBreakdown.redundancy
       - weights.style * penaltyBreakdown.style)
  { score := finalScore
    weights := weights
    penaltyBreakdown := penaltyBreakdown
    snapshot :=
      { timestamp := now
        score := (round (finalScore * 1000) : ℚ) / 1000
        issueCount := all.length } }

/-! ## DiffEngine, report diff (engine/diff-engine.ts) -/

def categoryStr : IssueCategory → String
  | IssueCategory.bug => "bug"
  | IssueCategory.security => "security"
  | IssueCategory.complexity => "complexity"
  | IssueCategory.style => "style"
  | IssueCategory.redundancy => "redundancy"

def severityStr : IssueSeverity → String
  | IssueSeverity.error => "error"
  | IssueSeverity.warning => "warning"
  | IssueSeverity.info => "info"

/-- `issueKey(issue)` of the diff engine:
`category:severity:(line ?? 0):message`. -/
def issueKey (issue : CodeIssue) : String :=
  categoryStr issue.category ++ ":" ++ severityStr issue.severity ++ ":" ++
    toString (issue.line.getD 0) ++ ":" ++ issue.message

/-- `PipelineReport`, restricted to the fields the diff engine reads
(`issues`, `securityIssues`, `score`); the remaining report fields are not
consumed by any modelled operation. -/
structure PipelineReport where
  issues : List CodeIssue
  securityIssues : List CodeIssue
  score : ℚ
  deriving DecidableEq, Repr

structure DiffResult where
  scoreDelta : ℚ
  newIssues : List CodeIssue
  resolvedIssues : List CodeIssue
  deriving DecidableEq, Repr

/-- `diffReports(oldReport, newReport)` (engine/diff-engine.ts). -/
def diffReports (oldReport newReport : PipelineReport) : DiffResult :=
  let oldAll := oldReport.issues ++ oldReport.securityIssues
  let newAll := newReport.issues ++ newReport.securityIssues
  let oldKeys := oldAll.map issueKey
  let newKeys := newAll.map issueKey
  { scoreDelta := newReport.score - oldReport.score
    newIssues := newAll.filter (fun i => issueKey i ∉ oldKeys)
    resolvedIssues := oldAll.filter (fun i => issueKey i ∉ newKeys) }

/-! ## DiffEngine, unified text diff (utils/diff.ts) -/

inductive EditType
  | equal | insert | delete
  deriving DecidableEq, Repr

structure Edit where
  type : EditType
  line : String
  ai : Option Nat
  bi : Option Nat
  deriving DecidableEq, Repr

/-- Entry `dp[i * width + j]` of the LCS table of `buildLCSTable`, expressed
by its defining recurrence (the `Uint32Array` is a memoisation detail). -/
def lcsTable (a b : List String) : Nat → Nat → Nat
  | 0, _ => 0
  | _ + 1, 0 => 0
  | i + 1, j + 1 =>
    if a.getD i "" = b.getD j "" then lcsTable a b i j + 1
    else max (lcsTable a b i (j + 1)) (lcsTable a b (i + 1) j)

/-- The `while (i > 0 || j > 0)` loop of `backtrack`, producing edits in push
order (from the ends of both inputs toward their starts). -/
def backtrackGo (a b : List String) : Nat → Nat → List Edit
  | 0, 0 => []
  | 0, j + 1 =>
    ⟨EditType.insert, b.getD j "", none, some j⟩ :: backtrackGo a b 0 j
  | i + 1, 0 =>
    ⟨EditType.delete, a.getD i "", some i, none⟩ :: backtrackGo a b i 0
  | i + 1, j + 1 =>
    if a.getD i "" = b.getD j "" then
      ⟨EditType.equal, a.getD i "", some i, some j⟩ :: backtrackGo a b i j
    else if lcsTable a b (i + 1) j ≥ lcsTable a b i (j + 1) then
      ⟨EditType.insert, b.getD j "", none, some j⟩ :: backtrackGo a b (i + 1) j
    else
      ⟨EditType.delete, a.getD i "", some i, none⟩ :: backtrackGo a b i (j + 1)

/-- `backtrack(a, b)`: the pushed edits, reversed into forward order. -/
def backtrack (a b : List String) : List Edit :=
  (backtrackGo a b a.length b.length).reverse

/-- The range-merging loop of `groupHunks`: each changed index `k` expands to
`[max(0, k - ctx), min(n - 1, k + ctx)]`; touching or overlapping windows
merge. -/
def buildRanges (n ctx : Nat) (start stop : Nat) :
    List Nat → List (Nat × Nat)
  | [] => [(start, stop)]
  | k :: rest =>
    let ns := k - ctx
    let ne := min (n - 1) (k + ctx)
    if ns ≤ stop + 1 then buildRanges n ctx start ne rest
    else (start, stop) :: buildRanges n ctx ns ne rest

/-- `groupHunks(ops, contextLines)`. -/
def groupHunks (ops : List Edit) (contextLines : Nat) : List (List Edit) :=
  let n := ops.length
  let changedIndices := ((ops.enum).filter
    (fun p => p.2.type ≠ EditType.equal)).map Prod.fst
  match changedIndices with
  | [] => []
  | c0 :: rest =>
    let ranges := buildRanges n contextLines (c0 - contextLines)
      (min (n - 1) (c0 + contextLines)) rest
    ranges.map (fun r => ((ops.drop r.1).take (r.2 + 1 - r.1)))

/-- `hunkHeader(hunkOps)`: `aStart`/`bStart` fold the (1-based) minimum index
over the relevant ops with `Infinity` as the initial accumulator, modelled as
`none`; `!isFinite(start)` then resets to 0. -/
def hunkHeader (hunkOps : List Edit) : String :=
  let astate := hunkOps.foldl (fun (st : Option Nat × Nat) op =>
    if op.type = EditType.equal ∨ op.type = EditType.delete then
      (match op.ai, st.1 with
       | some ai, none => some (ai + 1)
       | some ai, some cur => if ai + 1 < cur then some (ai + 1) else some cur
       | none, cur => cur, st.2 + 1)
    else st) (none, 0)
  let bstate := hunkOps.foldl (fun (st : Option Nat × Nat) op =>
    if op.type = EditType.equal ∨ op.type = EditType.insert then
      (match op.bi, st.1 with
       | some bi, none => some (bi + 1)
       | some bi, some cur => if bi + 1 < cur then some (bi + 1) else some cur
       | none, cur => cur, st.2 + 1)
    else st) (none, 0)
  let aStart := astate.1.getD 0
  let bStart := bstate.1.getD 0
  let aRange := if astate.2 = 1 then toString aStart
    else toString aStart ++ "," ++ toString astate.2
  let bRange := if bstate.2 = 1 then toString bStart
    else toString bStart ++ "," ++ toString bstate.2
  "@@ -" ++ aRange ++ " +" ++ bRange ++ " @@"

/-- Render one edit as its prefixed diff line. -/
def renderEdit (op : Edit) : String :=
  match op.type with
  | EditType.equal => " " ++ op.line
  | EditType.delete => "-" ++ op.line
  | EditType.insert => "+" ++ op.line

/-- `generateUnifiedDiff(originalCode, formattedCode, options)`
(utils/diff.ts); the option fields are passed positionally. -/
def generateUnifiedDiff (originalCode formattedCode : String)
    (originalFilename formattedFilename : String) (contextLines : Nat) : String :=
  if originalCode = formattedCode then ""
  else
    let aLines := strSplitOnChar '\n' originalCode
    let bLines := strSplitOnChar '\n' formattedCode
    let ops := backtrack aLines bLines
    let hunks := groupHunks ops contextLines
    if hunks.length = 0 then ""
    else
      let header := ["--- a/" ++ originalFilename, "+++ b/" ++ formattedFilename]
      let body := hunks.flatMap (fun hunkOps =>
        hunkHeader hunkOps :: hunkOps.map renderEdit)
      String.intercalate "\n" (header ++ body) ++ "\n"

/-! ## LanguageClassifier (detection module)

The extension and shebang layers are fully computable here.  The syntax
layer tests JavaScript regular expressions against the first 5000 characters
of the input; the host regex engine is abstracted as a `RegexOracle` giving,
for each language and signature-group index, whether any pattern of that
group matches the sample.  The group weights are taken verbatim from
`LANGUAGE_SIGNATURES`. -/

/-- `EXT_MAP`: lowercased suffix → language. -/
def EXT_MAP : List (String × SupportedLanguage) :=
  [(".js", SupportedLanguage.javascript), (".jsx", SupportedLanguage.javascript),
   (".mjs", SupportedLanguage.javascript), (".cjs", SupportedLanguage.javascript),
   (".ts", SupportedLanguage.typescript), (".tsx", SupportedLanguage.typescript),
   (".mts", SupportedLanguage.typescript), (".cts", SupportedLanguage.typescript),
   (".py", SupportedLanguage.python), (".pyw", SupportedLanguage.python),
   (".java", SupportedLanguage.java),
   (".c", SupportedLanguage.c), (".h", SupportedLanguage.c),
   (".cpp", SupportedLanguage.cpp), (".cc", SupportedLanguage.cpp),
   (".cxx", SupportedLanguage.cpp), (".hpp", SupportedLanguage.cpp),
   (".hxx", SupportedLanguage.cpp)]

/-- The match of `/(\.[^.]+)$/`: the final `"." ++ s` suffix with `s`
nonempty and dot-free. -/
def lastExtension (filename : String) : Option String :=
  let parts := strSplitOnChar '.' filename
  if parts.length ≤ 1 then none
  else
    let last := parts.getLastD ""
    if last = "" then none else some ("." ++ last)

/-- `detectByExtension(filename)`. -/
def detectByExtension (filename : String) : Option DetectionResult :=
  match lastExtension (strToLower filename) with
  | none => none
  | some ext =>
    match (EXT_MAP.find? (fun p => p.1 = ext)).map Prod.snd with
    | none => none
    | some lang => some ⟨some lang, 1, DetectionMethod.extension⟩

/-- `SHEBANG_PATTERNS`, in source order (`ts-node` before `node`); each
`pattern.test(firstLine)` is substring occurrence (`/python3?/` matches
exactly when "python" occurs). -/
def SHEBANG_PATTERNS : List (String × SupportedLanguage) :=
  [("python", SupportedLanguage.python),
   ("ts-node", SupportedLanguage.typescript),
   ("node", SupportedLanguage.javascript)]

/-- `detectByShebang(code)`. -/
def detectByShebang (code : String) : Option DetectionResult :=
  let firstLine := strTrim ((strSplitOnChar '\n' code).headD "")
  if startsWithStr firstLine "#!" then
    match SHEBANG_PATTERNS.find? (fun p => containsStr firstLine p.1) with
    | some p => some ⟨some p.2, 95/100, DetectionMethod.shebang⟩
    | none => none
  else none

def SAMPLE_SIZE : Nat := 5000

def MAX_CONFIDENCE : ℚ := 9/10

/-- The group weights of `LANGUAGE_SIGNATURES`, in source order. -/
def signatureWeights : SupportedLanguage → List ℚ
  | SupportedLanguage.javascript => [2, 1, 1, 2, 2, 3/2]
  | SupportedLanguage.typescript => [3, 3, 2, 3, 2, 2]
  | SupportedLanguage.python => [3, 2, 2, 3, 3, 1]
  | SupportedLanguage.java => [3, 3, 2, 3, 2, 2]
  | SupportedLanguage.c => [3, 3, 3, 2, 3/2]
  | SupportedLanguage.cpp => [3, 3, 2, 3, 2, 2]

/-- Verdicts of the host regex engine on the 5000-character sample:
`groupMatches lang g` holds when some pattern of group `g` of
`LANGUAGE_SIGNATURES[lang]` matches the sample. -/
structure RegexOracle where
  groupMatches : SupportedLanguage → Nat → Bool

/-- `scoreLanguage(sample, lang)`: matched weight over total weight. -/
def scoreLanguage (m : RegexOracle) (lang : SupportedLanguage) : ℚ :=
  let sigs := signatureWeights lang
  let total := sigs.sum
  let matched := (((sigs.enum).filter
    (fun p => m.groupMatches lang p.1)).map Prod.snd).sum
  if total = 0 then 0 else matched / total

structure LangScore where
  language : SupportedLanguage
  raw : ℚ
  deriving DecidableEq, Repr

/-- Stable insertion preserving descending `raw` order (ties keep earlier
elements first, as the stable JS `Array.prototype.sort` does). -/
def insertByRawDesc (x : LangScore) : List LangScore → List LangScore
  | [] => [x]
  | y :: ys =>
    if y.raw > x.raw then y :: insertByRawDesc x ys
    else x :: y :: ys

/-- `scores.sort((a, b) => b.raw - a.raw)` (stable). -/
def sortByRawDesc : List LangScore → List LangScore
  | [] => []
  | x :: xs => insertByRawDesc x (sortByRawDesc xs)

/-- `Object.keys(LANGUAGE_SIGNATURES)` order. -/
def signatureLanguages : List SupportedLanguage :=
  [SupportedLanguage.javascript, SupportedLanguage.typescript,
   SupportedLanguage.python, SupportedLanguage.java,
   SupportedLanguage.c, SupportedLanguage.cpp]

/-- Tie-break preference order. -/
def preferOrder : List SupportedLanguage :=
  [SupportedLanguage.typescript, SupportedLanguage.cpp, SupportedLanguage.java,
   SupportedLanguage.python, SupportedLanguage.javascript, SupportedLanguage.c]

/-- `detectBySyntax(code)`, over the regex oracle for the sample. -/
def detectBySyntax (m : RegexOracle) : Option DetectionResult :=
  let scores := sortByRawDesc (signatureLanguages.map
    (fun lang => ⟨lang, scoreLanguage m lang⟩))
  match scores with
  | [] => none
  | best :: rest =>
    if best.raw = 0 then none
    else
      let nonTie : DetectionResult :=
        ⟨some best.language, min (best.raw * (95/100)) MAX_CONFIDENCE,
          DetectionMethod.syntaxBased⟩
      match rest with
      | [] => some nonTie
      | second :: _ =>
        if |best.raw - second.raw| < 5/100 then
          match preferOrder.find?
            (fun p => p = best.language ∨ p = second.language) with
          | some preferred =>
            let winner := if preferred = best.language then best else second
            some ⟨some winner.language, min (winner.raw * (9/10)) MAX_CONFIDENCE,
              DetectionMethod.syntaxBased⟩
          | none => some nonTie
        else some nonTie

/-- `{language: "unknown", confidence: 0, method: "unknown"}`. -/
def unknownResult : DetectionResult := ⟨none, 0, DetectionMethod.unknown⟩

/-- A character counted by the binary-content guard: a control byte other
than tab/LF/CR. -/
def isNonPrintable (c : Char) : Bool :=
  c.toNat < 32 && c.toNat ≠ 9 && c.toNat ≠ 10 && c.toNat ≠ 13

/-- `detectLanguage(code, filename)` (the detection orchestrator).
`filename = none` models an omitted argument; the `if (filename)` truthiness
test also skips an empty string. -/
def detectLanguage (m : RegexOracle) (code : String) (filename : Option String) :
    DetectionResult :=
  if code = "" ∨ (strTrim code).length = 0 then unknownResult
  else
    let sample512 := strTake code 512
    let nonPrintable := (sample512.data.filter isNonPrintable).length
    if (nonPrintable : ℚ) / (sample512.length : ℚ) > 1/10 then unknownResult
    else
      let afterExtension :=
        match detectByShebang code with
        | some r => r
        | none =>
          match detectBySyntax m with
          | some r => r
          | none => unknownResult
      match filename with
      | some f =>
        if f = "" then afterExtension
        else
          match detectByExtension f with
          | some r => r
          | none => afterExtension
      | none => afterExtension

/-! ## Auxiliary definitions for the claims -/

/-- The identity key named by the specification: `(line, message)`. -/
def lineMessageKey (issue : CodeIssue) : Option Nat × String :=
  (issue.line, issue.message)

/-- `diffReports` as the specification words it: set difference over the
`(line, message)` identity key (spec §3 DiffResult, §4.5 Contract D).  Kept
separate from `diffReports` (translated from the source) to compare the two. -/
def diffReportsClaim (oldReport newReport : PipelineReport) : DiffResult :=
  let oldAll := oldReport.issues ++ oldReport.securityIssues
  let newAll := newReport.issues ++ newReport.securityIssues
  let oldKeys := oldAll.map lineMessageKey
  let newKeys := newAll.map lineMessageKey
  { scoreDelta := newReport.score - oldReport.score
    newIssues := newAll.filter (fun i => lineMessageKey i ∉ oldKeys)
    resolvedIssues := oldAll.filter (fun i => lineMessageKey i ∉ newKeys) }

/-- No two issues of the list agree on `(line, message)`. -/
def dupFreeLM (issues : List CodeIssue) : Prop :=
  issues.Pairwise (fun a b => lineMessageKey a ≠ lineMessageKey b)

/-- A stage batch whose first task settles quickly and whose second needs
7000 ms: with a 5000 ms stage deadline and an 8000 ms per-task deadline the
stage guard fires first. -/
def c1Tasks : List TaskEntry :=
  [⟨"fast", 1, TaskBehavior.ok (StageValue.issues [])⟩,
   ⟨"slow", 7000, TaskBehavior.ok (StageValue.issues [])⟩]

/-- One bug-category error-severity issue. -/
def c2BugIssue : CodeIssue :=
  ⟨"b1", IssueCategory.bug, IssueSeverity.error, "possible null dereference",
    some 3, none, none⟩

def emptyComplexityMetrics : ComplexityMetrics := ⟨0, 0, [], []⟩

def emptyRedundancyReport : RedundancyReport := ⟨0, [], []⟩

def emptyFormattingResult : FormattingResult := ⟨"", "", 0⟩

/-- An aggregated report containing a single bug error. -/
def c2Agg : AggregatedResult :=
  ⟨[c2BugIssue], [], emptyComplexityMetrics, emptyRedundancyReport,
    emptyFormattingResult, []⟩

/-- A weights argument overriding the bug weight with a negative number. -/
def c2NegOverrides : WeightOverrides := ⟨some (-10), none, none, none, none⟩

/-- Oracle of a sample on which every JavaScript signature group matches and
no group of any other language does; realised e.g. by the content
`console.log var function Promise document.x .then(`. -/
def jsOnlyOracle : RegexOracle :=
  ⟨fun lang _ =>
    match lang with
    | SupportedLanguage.javascript => true
    | _ => false⟩

/-- That content itself (no shebang, no control bytes, not whitespace-only). -/
def c3Code : String := "console.log var function Promise document.x .then("

/-- The result the syntax layer returns on `jsOnlyOracle`: confidence is
exactly the 0.9 cap. -/
def c3SyntaxResult : DetectionResult :=
  ⟨some SupportedLanguage.javascript, 9/10, DetectionMethod.syntaxBased⟩

/-- Oracle of a sample that matches no syntax signature at all. -/
def nullOracle : RegexOracle := ⟨fun _ _ => false⟩

/-- A heuristic (regex-scanner) security finding on line 5. -/
def c4Heuristic : CodeIssue :=
  ⟨"sec-regex-1", IssueCategory.security, IssueSeverity.warning,
    "eval usage detected", some 5, none, none⟩

/-- Stage outcomes of a pipeline run: the heuristic security engine fulfils
under its pipeline label "securityRules"; semgrep fulfils with no findings. -/
def c4Results : List StageResult :=
  [⟨"securityRules", StageStatus.fulfilled,
     some (StageValue.issues [c4Heuristic]), none, 3⟩,
   ⟨"semgrepEngine", StageStatus.fulfilled,
     some (StageValue.issues []), none, 4⟩]

/-- Old-report issue: (bug, warning) on line 1. -/
def c5OldIssue : CodeIssue :=
  ⟨"w1", IssueCategory.bug, IssueSeverity.warning, "loose equality", some 1,
    none, none⟩

/-- New-report issue: same line and message, but severity error. -/
def c5NewIssue : CodeIssue :=
  ⟨"e1", IssueCategory.bug, IssueSeverity.error, "loose equality", some 1,
    none, none⟩

def c5Old : PipelineReport := ⟨[c5OldIssue], [], 8/10⟩

def c5New : PipelineReport := ⟨[c5NewIssue], [], 9/10⟩

/-- A task that rejects with an `Error` whose message merely *begins with*
the literal `[timeout]` prefix, mimicking the scheduler's timeout marker. -/
def c7Task : TaskEntry :=
  ⟨"edge", 1, TaskBehavior.throw ⟨true, "[timeout] self-reported by engine"⟩⟩

/-- A batch with an ordinary failing task (k = 1) beside a healthy one. -/
def c7Batch : List TaskEntry :=
  [⟨"ok", 1, TaskBehavior.ok (StageValue.issues [])⟩,
   ⟨"boom", 2, TaskBehavior.throw ⟨true, "engine exploded"⟩⟩]

/-- The same batch with task 1 replaced by a different task. -/
def c7BatchVariant : List TaskEntry :=
  [⟨"ok", 1, TaskBehavior.ok (StageValue.issues [])⟩,
   ⟨"other", 3, TaskBehavior.ok (StageValue.formatting ⟨"", "", 0⟩)⟩]

/-- A duplicate-pair record as the redundancy engine reports it. -/
def c8Dup : DuplicateFunction := ⟨"parseA", 10, "parseB"⟩

/-- A redundancy engine outcome listing the same duplicate record twice. -/
def c8Results : List StageResult :=
  [⟨"redundancyEngine", StageStatus.fulfilled,
     some (StageValue.redundancy [c8Dup, c8Dup]), none, 6⟩]

/-- A task rejecting with an engine-made `[timeout]`-prefixed error. -/
def c10Task : TaskEntry :=
  ⟨"osv", 3, TaskBehavior.throw ⟨true, "[timeout] upstream service budget exhausted"⟩⟩

/-! ## Helper lemmas -/

theorem wrapTask_label (taskMs : Nat) (t : TaskEntry) :
    (wrapTask taskMs t).label = t.label := by
  unfold wrapTask
  split
  · rfl
  · cases t.behavior <;> rfl

theorem scoreLanguage_jsOnly_js :
    scoreLanguage jsOnlyOracle SupportedLanguage.javascript = 1 := by
  norm_num [scoreLanguage, signatureWeights, jsOnlyOracle, List.enum, List.enumFrom]

theorem scoreLanguage_jsOnly_ts :
    scoreLanguage jsOnlyOracle SupportedLanguage.typescript = 0 := by
  norm_num [scoreLanguage, signatureWeights, jsOnlyOracle, List.enum, List.enumFrom]

theorem scoreLanguage_jsOnly_py :
    scoreLanguage jsOnlyOracle SupportedLanguage.python = 0 := by
  norm_num [scoreLanguage, signatureWeights, jsOnlyOracle, List.enum, List.enumFrom]

theorem scoreLanguage_jsOnly_java :
    scoreLanguage jsOnlyOracle SupportedLanguage.java = 0 := by
  norm_num [scoreLanguage, signatureWeights, jsOnlyOracle, List.enum, List.enumFrom]

theorem scoreLanguage_jsOnly_c :
    scoreLanguage jsOnlyOracle SupportedLanguage.c = 0 := by
  norm_num [scoreLanguage, signatureWeights, jsOnlyOracle, List.enum, List.enumFrom]

theorem scoreLanguage_jsOnly_cpp :
    scoreLanguage jsOnlyOracle SupportedLanguage.cpp = 0 := by
  norm_num [scoreLanguage, signatureWeights, jsOnlyOracle, List.enum, List.enumFrom]

/-- On `jsOnlyOracle` (raw JavaScript score 1, all others 0, no tie) the
syntax layer returns confidence `min(1 × 0.95, 0.9) = 0.9` exactly. -/
theorem detectBySyntax_jsOnly :
    detectBySyntax jsOnlyOracle = some c3SyntaxResult := by
  have hmap : signatureLanguages.map
      (fun lang => (⟨lang, scoreLanguage jsOnlyOracle lang⟩ : LangScore)) =
      [⟨SupportedLanguage.javascript, 1⟩, ⟨SupportedLanguage.typescript, 0⟩,
       ⟨SupportedLanguage.python, 0⟩, ⟨SupportedLanguage.java, 0⟩,
       ⟨SupportedLanguage.c, 0⟩, ⟨SupportedLanguage.cpp, 0⟩] := by
    simp [signatureLanguages, scoreLanguage_jsOnly_js, scoreLanguage_jsOnly_ts,
      scoreLanguage_jsOnly_py, scoreLanguage_jsOnly_java, scoreLanguage_jsOnly_c,
      scoreLanguage_jsOnly_cpp]
  have hsort : sortByRawDesc
      [(⟨SupportedLanguage.javascript, 1⟩ : LangScore), ⟨SupportedLanguage.typescript, 0⟩,
       ⟨SupportedLanguage.python, 0⟩, ⟨SupportedLanguage.java, 0⟩,
       ⟨SupportedLanguage.c, 0⟩, ⟨SupportedLanguage.cpp, 0⟩] =
      [⟨SupportedLanguage.javascript, 1⟩, ⟨SupportedLanguage.typescript, 0⟩,
       ⟨SupportedLanguage.python, 0⟩, ⟨SupportedLanguage.java, 0⟩,
       ⟨SupportedLanguage.c, 0⟩, ⟨SupportedLanguage.cpp, 0⟩] := by
    norm_num [sortByRawDesc, insertByRawDesc]
  simp only [detectBySyntax, hmap, hsort]
  norm_num [MAX_CONFIDENCE, c3SyntaxResult, min_def]

/-! ## Claim theorems -/

/-- C1: the spec requires `ParallelStage.run` to return a `StageOutcome` for
every registered task even when the stage deadline fires first, settled
outcomes kept and pending tasks marked timeout.  The code instead resolves
the stage guard with `[]`: on the batch `c1Tasks` (first task settled at
1 ms, second still pending at the 5000 ms stage deadline) the scheduler
returns the empty list, discarding the settled outcome and reporting nothing
for either of the two registered tasks. -/
theorem c1_stage_timeout_discards_settled_outcomes :
    ParallelStage.run c1Tasks 8000 5000 = [] ∧
    c1Tasks.length = 2 ∧
    wrapTask 8000 c1Tasks.head! =
      ⟨"fast", StageStatus.fulfilled, some (StageValue.issues []), none, 1⟩ := by
  refine ⟨by decide, rfl, by decide⟩

/-- C9: `generateUnifiedDiff(x, x, contextLines)` returns the empty string
for every input string, every pair of filenames and every context width. -/
theorem c9_diff_of_identical_inputs_is_empty
    (x originalFilename formattedFilename : String) (contextLines : Nat) :
    generateUnifiedDiff x x originalFilename formattedFilename contextLines = "" := by
  unfold generateUnifiedDiff
  rw [if_pos rfl]

/-- C10: a registered task that rejects with an `Error` whose message begins
with the literal prefix "[timeout]" is reported with status timeout, not
rejected — the scheduler distinguishes timeouts from ordinary failures
solely by this message prefix. -/
theorem c10_prefixed_error_reported_as_timeout
    (tasks : List TaskEntry) (k : Nat) (l : String) (d : Nat) (e : JSError)
    (taskMs stageMs : Nat)
    (hstage : stageSettleTime tasks taskMs ≤ stageMs)
    (htask : tasks.get? k = some ⟨l, d, TaskBehavior.throw e⟩)
    (hd : d ≤ taskMs)
    (herr : e.isError = true)
    (hpre : startsWithStr e.message "[timeout]" = true) :
    (ParallelStage.run tasks taskMs stageMs).get? k =
      some ⟨l, StageStatus.timeout, none, some e, d⟩ := by
  unfold ParallelStage.run
  rw [if_pos hstage, List.get?_map, htask]
  simp [wrapTask, Nat.not_lt.mpr hd, herr, hpre]

/-- Witness for C10 at the concrete task `c10Task`. -/
theorem c10_prefixed_error_reported_as_timeout_witness :
    stageSettleTime [c10Task] 8000 ≤ 15000 ∧
    [c10Task].get? 0 = some ⟨"osv", 3, TaskBehavior.throw
      ⟨true, "[timeout] upstream service budget exhausted"⟩⟩ ∧
    3 ≤ 8000 ∧
    (JSError.mk true "[timeout] upstream service budget exhausted").isError = true ∧
    startsWithStr "[timeout] upstream service budget exhausted" "[timeout]" = true ∧
    (ParallelStage.run [c10Task] 8000 15000).get? 0 =
      some ⟨"osv", StageStatus.timeout, none,
        some ⟨true, "[timeout] upstream service budget exhausted"⟩, 3⟩ :=
  ⟨by decide, rfl, by decide, rfl, by decide,
    c10_prefixed_error_reported_as_timeout [c10Task] 0 "osv" 3
      ⟨true, "[timeout] upstream service budget exhausted"⟩ 8000 15000
      (by decide) rfl (by decide) rfl (by decide)⟩

/-- C7 counterexample: the claim states that a task that throws or rejects
yields status "rejected" for *every* thrown error, but a task rejecting with
an `Error` whose message starts with "[timeout]" (`c7Task`) is reported with
status timeout instead. -/
theorem c7_counterexample_prefixed_rejection_not_rejected :
    (ParallelStage.run [c7Task] 8000 15000).map StageResult.status =
      [StageStatus.timeout] ∧
    StageStatus.timeout ≠ StageStatus.rejected := by
  refine ⟨by decide, by decide⟩

/-- C7 (amended): for a batch settling within the stage deadline, `run`
yields exactly one outcome per registered task (labels preserved), a task
rejecting with anything other than an `Error` whose message starts with
"[timeout]" gets status rejected, and replacing the task at one index leaves
every sibling outcome unchanged. -/
theorem c7_one_outcome_per_task_and_fault_isolation
    (tasks tasks' : List TaskEntry) (taskMs stageMs k : Nat)
    (hstage : stageSettleTime tasks taskMs ≤ stageMs)
    (hstage' : stageSettleTime tasks' taskMs ≤ stageMs)
    (hsib : ∀ j, j ≠ k → tasks'.get? j = tasks.get? j) :
    (ParallelStage.run tasks taskMs stageMs).length = tasks.length ∧
    (∀ i r, (ParallelStage.run tasks taskMs stageMs).get? i = some r →
      ∃ t, tasks.get? i = some t ∧ r.label = t.label) ∧
    (∀ l d e, tasks.get? k = some ⟨l, d, TaskBehavior.throw e⟩ → d ≤ taskMs →
      (e.isError && startsWithStr e.message "[timeout]") = false →
      (ParallelStage.run tasks taskMs stageMs).get? k =
        some ⟨l, StageStatus.rejected, none, some e, d⟩) ∧
    (∀ j, j ≠ k → (ParallelStage.run tasks' taskMs stageMs).get? j =
      (ParallelStage.run tasks taskMs stageMs).get? j) := by
  have hrun : ParallelStage.run tasks taskMs stageMs = tasks.map (wrapTask taskMs) := by
    unfold ParallelStage.run
    rw [if_pos hstage]
  have hrun' : ParallelStage.run tasks' taskMs stageMs = tasks'.map (wrapTask taskMs) := by
    unfold ParallelStage.run
    rw [if_pos hstage']
  refine ⟨?_, ?_, ?_, ?_⟩
  · rw [hrun, List.length_map]
  · intro i r hr
    rw [hrun, List.get?_map] at hr
    cases htasks : tasks.get? i with
    | none => rw [htasks] at hr; exact absurd hr (by simp)
    | some t =>
      rw [htasks] at hr
      refine ⟨t, rfl, ?_⟩
      have : wrapTask taskMs t = r := by
        simpa using hr
      rw [← this, wrapTask_label]
  · intro l d e htask hd hpre
    rw [hrun, List.get?_map, htask]
    simp [wrapTask, Nat.not_lt.mpr hd, hpre]
  · intro j hj
    rw [hrun, hrun', List.get?_map, List.get?_map, hsib j hj]

/-- Witness for the amended C7 at the concrete batches `c7Batch` (whose task
1 rejects with an ordinary error) and `c7BatchVariant`. -/
theorem c7_one_outcome_per_task_and_fault_isolation_witness :
    stageSettleTime c7Batch 8000 ≤ 15000 ∧
    stageSettleTime c7BatchVariant 8000 ≤ 15000 ∧
    (∀ j, j ≠ 1 → c7BatchVariant.get? j = c7Batch.get? j) ∧
    ((ParallelStage.run c7Batch 8000 15000).length = c7Batch.length ∧
    (∀ i r, (ParallelStage.run c7Batch 8000 15000).get? i = some r →
      ∃ t, c7Batch.get? i = some t ∧ r.label = t.label) ∧
    (∀ l d e, c7Batch.get? 1 = some ⟨l, d, TaskBehavior.throw e⟩ → d ≤ 8000 →
      (e.isError && startsWithStr e.message "[timeout]") = false →
      (ParallelStage.run c7Batch 8000 15000).get? 1 =
        some ⟨l, StageStatus.rejected, none, some e, d⟩) ∧
    (∀ j, j ≠ 1 → (ParallelStage.run c7BatchVariant 8000 15000).get? j =
      (ParallelStage.run c7Batch 8000 15000).get? j)) :=
  ⟨by decide, by decide,
    fun j hj => by
      match j with
      | 0 => rfl
      | 1 => exact absurd rfl hj
      | j + 2 => rfl,
    c7_one_outcome_per_task_and_fault_isolation c7Batch c7BatchVariant 8000 15000 1
      (by decide) (by decide)
      (fun j hj => by
        match j with
        | 0 => rfl
        | 1 => exact absurd rfl hj
        | j + 2 => rfl)⟩

/-- C2 counterexample: the claim ranges over *every* weights argument, but
`score` has no upper clamp — a negative weight override (`c2NegOverrides`)
on a report containing one bug error produces a score of 5/2, outside
`[0, 1]`. -/
theorem c2_counterexample_negative_weight_exceeds_one :
    (score c2Agg c2NegOverrides "").score = 5/2 ∧
    ¬ (score c2Agg c2NegOverrides "").score ≤ 1 := by
  have hbe : countIssues (c2Agg.issues ++ c2Agg.securityIssues ++
      c2Agg.complexityMetrics.issues ++ c2Agg.redundancy.issues)
      IssueCategory.bug IssueSeverity.error = 1 := by decide
  have hbw : countIssues (c2Agg.issues ++ c2Agg.securityIssues ++
      c2Agg.complexityMetrics.issues ++ c2Agg.redundancy.issues)
      IssueCategory.bug IssueSeverity.warning = 0 := by decide
  have hse : countIssues (c2Agg.issues ++ c2Agg.securityIssues ++
      c2Agg.complexityMetrics.issues ++ c2Agg.redundancy.issues)
      IssueCategory.security IssueSeverity.error = 0 := by decide
  have hsw : countIssues (c2Agg.issues ++ c2Agg.securityIssues ++
      c2Agg.complexityMetrics.issues ++ c2Agg.redundancy.issues)
      IssueCategory.security IssueSeverity.warning = 0 := by decide
  have hce : countIssues (c2Agg.issues ++ c2Agg.securityIssues ++
      c2Agg.complexityMetrics.issues ++ c2Agg.redundancy.issues)
      IssueCategory.complexity IssueSeverity.error = 0 := by decide
  have hcw : countIssues (c2Agg.issues ++ c2Agg.securityIssues ++
      c2Agg.complexityMetrics.issues ++ c2Agg.redundancy.issues)
      IssueCategory.complexity IssueSeverity.warning = 0 := by decide
  have hrw : countIssues (c2Agg.issues ++ c2Agg.securityIssues ++
      c2Agg.complexityMetrics.issues ++ c2Agg.redundancy.issues)
      IssueCategory.redundancy IssueSeverity.warning = 0 := by decide
  have hstw : countIssues (c2Agg.issues ++ c2Agg.securityIssues ++
      c2Agg.complexityMetrics.issues ++ c2Agg.redundancy.issues)
      IssueCategory.style IssueSeverity.warning = 0 := by decide
  have hsti : countIssues (c2Agg.issues ++ c2Agg.securityIssues ++
      c2Agg.complexityMetrics.issues ++ c2Agg.redundancy.issues)
      IssueCategory.style IssueSeverity.info = 0 := by decide
  have hscore : (score c2Agg c2NegOverrides "").score = 5/2 := by
    dsimp only [score]
    rw [hbe, hbw, hse, hsw, hce, hcw, hrw, hstw, hsti]
    norm_num [mergeWeights, c2NegOverrides, DEFAULT_WEIGHTS, min_def, max_def]
  exact ⟨hscore, by rw [hscore]; norm_num⟩

/-- C2 (amended): when the effective weights are nonnegative — as all
default weights are — the score lies in `[0, 1]`, and the five category
penalties are each clamped to `[0, 1]` unconditionally. -/
theorem c2_score_bounded
    (aggregated : AggregatedResult) (o : WeightOverrides) (now : String)
    (hb : 0 ≤ (mergeWeights o).bug)
    (hsec : 0 ≤ (mergeWeights o).security)
    (hcx : 0 ≤ (mergeWeights o).complexity)
    (hred : 0 ≤ (mergeWeights o).redundancy)
    (hsty : 0 ≤ (mergeWeights o).style) :
    0 ≤ (score aggregated o now).score ∧ (score aggregated o now).score ≤ 1 ∧
    0 ≤ (score aggregated o now).penaltyBreakdown.bug ∧
    (score aggregated o now).penaltyBreakdown.bug ≤ 1 ∧
    0 ≤ (score aggregated o now).penaltyBreakdown.security ∧
    (score aggregated o now).penaltyBreakdown.security ≤ 1 ∧
    0 ≤ (score aggregated o now).penaltyBreakdown.complexity ∧
    (score aggregated o now).penaltyBreakdown.complexity ≤ 1 ∧
    0 ≤ (score aggregated o now).penaltyBreakdown.redundancy ∧
    (score aggregated o now).penaltyBreakdown.redundancy ≤ 1 ∧
    0 ≤ (score aggregated o now).penaltyBreakdown.style ∧
    (score aggregated o now).penaltyBreakdown.style ≤ 1 := by
  dsimp only [score]
  have hpen : ∀ x : ℚ, 0 ≤ x → 0 ≤ min 1 x ∧ min 1 x ≤ 1 := by
    intro x hx
    exact ⟨le_min (by norm_num) hx, min_le_left _ _⟩
  have p1 := hpen _ (by positivity :
    (0:ℚ) ≤ (countIssues (aggregated.issues ++ aggregated.securityIssues ++
      aggregated.complexityMetrics.issues ++ aggregated.redundancy.issues)
        IssueCategory.bug IssueSeverity.error : ℚ) * (15/100) +
      (countIssues (aggregated.issues ++ aggregated.securityIssues ++
        aggregated.complexityMetrics.issues ++ aggregated.redundancy.issues)
          IssueCategory.bug IssueSeverity.warning : ℚ) * (5/100))
  have p2 := hpen _ (by positivity :
    (0:ℚ) ≤ (countIssues (aggregated.issues ++ aggregated.securityIssues ++
      aggregated.complexityMetrics.issues ++ aggregated.redundancy.issues)
        IssueCategory.security IssueSeverity.error : ℚ) * (20/100) +
      (countIssues (aggregated.issues ++ aggregated.securityIssues ++
        aggregated.complexityMetrics.issues ++ aggregated.redundancy.issues)
          IssueCategory.security IssueSeverity.warning : ℚ) * (8/100))
  have p3 := hpen _ (by positivity :
    (0:ℚ) ≤ (countIssues (aggregated.issues ++ aggregated.securityIssues ++
      aggregated.complexityMetrics.issues ++ aggregated.redundancy.issues)
        IssueCategory.complexity IssueSeverity.error : ℚ) * (10/100) +
      (countIssues (aggregated.issues ++ aggregated.securityIssues ++
        aggregated.complexityMetrics.issues ++ aggregated.redundancy.issues)
          IssueCategory.complexity IssueSeverity.warning : ℚ) * (4/100))
  have p4 := hpen _ (by positivity :
    (0:ℚ) ≤ (countIssues (aggregated.issues ++ aggregated.securityIssues ++
      aggregated.complexityMetrics.issues ++ aggregated.redundancy.issues)
        IssueCategory.redundancy IssueSeverity.warning : ℚ) * (4/100))
  have p5 := hpen _ (by positivity :
    (0:ℚ) ≤ (countIssues (aggregated.issues ++ aggregated.securityIssues ++
      aggregated.complexityMetrics.issues ++ aggregated.redundancy.issues)
        IssueCategory.style IssueSeverity.warning : ℚ) * (3/100) +
      (countIssues (aggregated.issues ++ aggregated.securityIssues ++
        aggregated.complexityMetrics.issues ++ aggregated.redundancy.issues)
          IssueCategory.style IssueSeverity.info : ℚ) * (1/100))
  refine ⟨le_max_left 0 _, ?_, p1.1, p1.2, p2.1, p2.2, p3.1, p3.2, p4.1, p4.2,
    p5.1, p5.2⟩
  have w1 := mul_nonneg hb p1.1
  have w2 := mul_nonneg hsec p2.1
  have w3 := mul_nonneg hcx p3.1
  have w4 := mul_nonneg hred p4.1
  have w5 := mul_nonneg hsty p5.1
  exact max_le (by norm_num) (by linarith)

/-- Witness for the amended C2 at `c2Agg` with no overrides. -/
theorem c2_score_bounded_witness :
    0 ≤ (mergeWeights noOverrides).bug ∧
    0 ≤ (mergeWeights noOverrides).security ∧
    0 ≤ (mergeWeights noOverrides).complexity ∧
    0 ≤ (mergeWeights noOverrides).redundancy ∧
    0 ≤ (mergeWeights noOverrides).style ∧
    (0 ≤ (score c2Agg noOverrides "").score ∧
      (score c2Agg noOverrides "").score ≤ 1 ∧
      0 ≤ (score c2Agg noOverrides "").penaltyBreakdown.bug ∧
      (score c2Agg noOverrides "").penaltyBreakdown.bug ≤ 1 ∧
      0 ≤ (score c2Agg noOverrides "").penaltyBreakdown.security ∧
      (score c2Agg noOverrides "").penaltyBreakdown.security ≤ 1 ∧
      0 ≤ (score c2Agg noOverrides "").penaltyBreakdown.complexity ∧
      (score c2Agg noOverrides "").penaltyBreakdown.complexity ≤ 1 ∧
      0 ≤ (score c2Agg noOverrides "").penaltyBreakdown.redundancy ∧
      (score c2Agg noOverrides "").penaltyBreakdown.redundancy ≤ 1 ∧
      0 ≤ (score c2Agg noOverrides "").penaltyBreakdown.style ∧
      (score c2Agg noOverrides "").penaltyBreakdown.style ≤ 1) :=
  ⟨by norm_num [mergeWeights, noOverrides, DEFAULT_WEIGHTS],
    by norm_num [mergeWeights, noOverrides, DEFAULT_WEIGHTS],
    by norm_num [mergeWeights, noOverrides, DEFAULT_WEIGHTS],
    by norm_num [mergeWeights, noOverrides, DEFAULT_WEIGHTS],
    by norm_num [mergeWeights, noOverrides, DEFAULT_WEIGHTS],
    c2_score_bounded c2Agg noOverrides ""
      (by norm_num [mergeWeights, noOverrides, DEFAULT_WEIGHTS])
      (by norm_num [mergeWeights, noOverrides, DEFAULT_WEIGHTS])
      (by norm_num [mergeWeights, noOverrides, DEFAULT_WEIGHTS])
      (by norm_num [mergeWeights, noOverrides, DEFAULT_WEIGHTS])
      (by norm_num [mergeWeights, noOverrides, DEFAULT_WEIGHTS])⟩

/-- C3 counterexample: the claim says syntax-layer confidence is strictly
below 0.9, but on the content `c3Code` (all JavaScript signature groups
match, no tie) classification falls through to the syntax layer and the
returned confidence *equals* 0.9: `min(1 × 0.95, 0.9) = 0.9`. -/
theorem c3_counterexample_syntax_confidence_reaches_cap :
    detectLanguage jsOnlyOracle c3Code none = c3SyntaxResult ∧
    c3SyntaxResult.confidence = 9/10 ∧
    ¬ ((9/10 : ℚ) < 9/10) := by
  refine ⟨?_, rfl, by norm_num⟩
  have hguard : ¬ (c3Code = "" ∨ (strTrim c3Code).length = 0) := by decide
  have hfl : ((strTake c3Code 512).data.filter isNonPrintable).length = 0 := by decide
  have hlen : (strTake c3Code 512).length = 50 := by decide
  have hshe : detectByShebang c3Code = none := by decide
  unfold detectLanguage
  rw [if_neg hguard]
  dsimp only
  rw [hfl, hlen]
  rw [if_neg (by norm_num)]
  simp only [hshe, detectBySyntax_jsOnly]

/-- C3 (amended): syntax-layer confidence is capped at 0.9 — in the non-tie
path `min(raw × 0.95, 0.9)` and in the tie-break path `min(raw × 0.9, 0.9)` —
but the bound is not strict: it is attained (see the counterexample). -/
theorem c3_syntax_confidence_at_most_cap (m : RegexOracle) (r : DetectionResult)
    (h : detectBySyntax m = some r) : r.confidence ≤ 9/10 := by
  simp only [detectBySyntax] at h
  split at h
  · exact absurd h (by simp)
  · split at h
    · exact absurd h (by simp)
    · split at h
      · injection h with h'
        subst h'
        exact min_le_right _ _
      · split at h
        · split at h
          · injection h with h'
            subst h'
            exact min_le_right _ _
          · injection h with h'
            subst h'
            exact min_le_right _ _
        · injection h with h'
          subst h'
          exact min_le_right _ _

/-- Witness for the amended C3 at the oracle `jsOnlyOracle`. -/
theorem c3_syntax_confidence_at_most_cap_witness :
    detectBySyntax jsOnlyOracle = some c3SyntaxResult ∧
    c3SyntaxResult.confidence ≤ 9/10 :=
  ⟨detectBySyntax_jsOnly,
    c3_syntax_confidence_at_most_cap jsOnlyOracle c3SyntaxResult detectBySyntax_jsOnly⟩

/-- C6: when the content is non-empty, not whitespace-only and passes the
binary-content guard, and the supplied filename's lowercased suffix is in
the extension table, `detectLanguage` returns that table's language with
confidence exactly 1.0 and method "extension" — regardless of the content
(the syntax oracle `m` is arbitrary). -/
theorem c6_extension_match_wins_with_confidence_one
    (m : RegexOracle) (code f ext : String) (lang : SupportedLanguage)
    (hcode : ¬ (code = "" ∨ (strTrim code).length = 0))
    (hbin : ¬ ((((strTake code 512).data.filter isNonPrintable).length : ℚ) /
      ((strTake code 512).length : ℚ) > 1/10))
    (hext : lastExtension (strToLower f) = some ext)
    (hmap : (EXT_MAP.find? (fun p => p.1 = ext)).map Prod.snd = some lang) :
    detectLanguage m code (some f) = ⟨some lang, 1, DetectionMethod.extension⟩ := by
  have hf : f ≠ "" := by
    intro hf
    subst hf
    have hnone : lastExtension (strToLower "") = none := by decide
    rw [hnone] at hext
    exact Option.noConfusion hext
  unfold detectLanguage
  rw [if_neg hcode]
  dsimp only
  rw [if_neg hbin]
  rw [if_neg hf]
  unfold detectByExtension
  rw [hext]
  dsimp only
  rw [hmap]

/-- Witness for C6: Python content-agnostic match on filename "Main.PY". -/
theorem c6_extension_match_wins_with_confidence_one_witness :
    ¬ ("x = 1" = "" ∨ (strTrim "x = 1").length = 0) ∧
    ¬ ((((strTake "x = 1" 512).data.filter isNonPrintable).length : ℚ) /
      ((strTake "x = 1" 512).length : ℚ) > 1/10) ∧
    lastExtension (strToLower "Main.PY") = some ".py" ∧
    (EXT_MAP.find? (fun p => p.1 = ".py")).map Prod.snd = some SupportedLanguage.python ∧
    detectLanguage nullOracle "x = 1" (some "Main.PY") =
      ⟨some SupportedLanguage.python, 1, DetectionMethod.extension⟩ := by
  have hbin : ¬ ((((strTake "x = 1" 512).data.filter isNonPrintable).length : ℚ) /
      ((strTake "x = 1" 512).length : ℚ) > 1/10) := by
    have h1 : ((strTake "x = 1" 512).data.filter isNonPrintable).length = 0 := by decide
    have h2 : (strTake "x = 1" 512).length = 5 := by decide
    rw [h1, h2]
    norm_num
  exact ⟨by decide, hbin, by decide, by decide,
    c6_extension_match_wins_with_confidence_one nullOracle "x = 1" "Main.PY" ".py"
      SupportedLanguage.python (by decide) hbin (by decide) (by decide)⟩

/-- C5 counterexample: the claim takes `(line, message)` as the diff identity
key, but the code keys on `(category, severity, line ?? 0, message)`.  The
old and new reports hold issues agreeing on `(line, message)` and differing
in severity: the code reports the new one as a new issue, while the claimed
key-set difference would report nothing. -/
theorem c5_counterexample_key_includes_category_severity :
    (diffReports c5Old c5New).newIssues = [c5NewIssue] ∧
    (diffReports c5Old c5New).resolvedIssues = [c5OldIssue] ∧
    (diffReportsClaim c5Old c5New).newIssues = [] ∧
    (diffReportsClaim c5Old c5New).resolvedIssues = [] ∧
    lineMessageKey c5NewIssue = lineMessageKey c5OldIssue := by
  refine ⟨by decide, by decide, by decide, by decide, by decide⟩

/-- C5 (amended): `diffReports` returns `scoreDelta = new.score − old.score`
and set-differences over the identity key
`category:severity:(line ?? 0):message` (`issueKey`) of the concatenated
`issues ++ securityIssues` lists of the two reports. -/
theorem c5_diff_reports_by_issue_key (oldReport newReport : PipelineReport) :
    (diffReports oldReport newReport).scoreDelta =
      newReport.score - oldReport.score ∧
    (∀ i, i ∈ (diffReports oldReport newReport).newIssues ↔
      (i ∈ newReport.issues ++ newReport.securityIssues ∧
        ∀ j ∈ oldReport.issues ++ oldReport.securityIssues,
          issueKey j ≠ issueKey i)) ∧
    (∀ i, i ∈ (diffReports oldReport newReport).resolvedIssues ↔
      (i ∈ oldReport.issues ++ oldReport.securityIssues ∧
        ∀ j ∈ newReport.issues ++ newReport.securityIssues,
          issueKey j ≠ issueKey i)) := by
  refine ⟨rfl, ?_, ?_⟩ <;> intro i <;>
    (simp [diffReports, List.mem_filter, List.mem_map, not_exists, or_imp,
      forall_and]; tauto)

/-- C4: in a pipeline run the heuristic security engine fulfils under the
label "securityRules" (pipeline.ts), but `aggregate` extracts heuristic
findings from the label "teamSecurityEngine" (aggregator.ts).  On the run
outcomes `c4Results` — a heuristic finding on line 5, semgrep reporting
nothing — the finding is silently dropped from `securityIssues` (and from
`issues`), although `deduplicateSecurity` itself would have kept it.  The
claim (heuristic findings on semgrep-uncovered lines are kept) describes
the documented intent; the wiring contradicts it. -/
theorem c4_heuristic_findings_dropped_by_label_mismatch :
    (aggregate c4Results).securityIssues = [] ∧
    (aggregate c4Results).issues = [] ∧
    deduplicateSecurity [] [] [c4Heuristic] = [c4Heuristic] := by
  refine ⟨by decide, by decide, by decide⟩

theorem dedupGo_key_not_mem {l : List CodeIssue} {seen : List String} {i : CodeIssue}
    (hi : i ∈ dedupGo seen l) : dedupKey i ∉ seen := by
  induction l generalizing seen with
  | nil => simp [dedupGo] at hi
  | cons a rest ih =>
    rw [dedupGo] at hi
    by_cases hk : dedupKey a ∈ seen
    · rw [if_pos hk] at hi
      exact ih hi
    · rw [if_neg hk] at hi
      rcases List.mem_cons.mp hi with rfl | hi'
      · exact hk
      · have hmem := ih hi'
        exact fun hs => hmem (List.mem_cons_of_mem _ hs)

theorem dedupGo_pairwise (l : List CodeIssue) (seen : List String) :
    (dedupGo seen l).Pairwise (fun a b => dedupKey a ≠ dedupKey b) := by
  induction l generalizing seen with
  | nil => simp [dedupGo]
  | cons a rest ih =>
    rw [dedupGo]
    by_cases hk : dedupKey a ∈ seen
    · rw [if_pos hk]
      exact ih seen
    · rw [if_neg hk]
      refine List.Pairwise.cons ?_ (ih _)
      intro b hb heq
      exact dedupGo_key_not_mem hb (heq ▸ List.mem_cons_self _ _)

theorem dedupKey_eq_of_lineMessageKey_eq {a b : CodeIssue}
    (h : lineMessageKey a = lineMessageKey b) : dedupKey a = dedupKey b := by
  unfold lineMessageKey at h
  rw [Prod.mk.injEq] at h
  obtain ⟨h1, h2⟩ := h
  unfold dedupKey
  rw [h1, h2]

/-- The generic dedup leaves no two issues with the same `(line, message)`. -/
theorem deduplicate_dupFree (l : List CodeIssue) : dupFreeLM (deduplicate l) :=
  (dedupGo_pairwise l []).imp
    (fun hk hlm => hk (dedupKey_eq_of_lineMessageKey_eq hlm))

/-- C8 counterexample: the claim asserts no issues list produced by
`aggregate` holds two issues with identical `(line, message)`, but the
`redundancy.issues` sublist is converted verbatim from engine output and is
not deduplicated: a redundancy outcome listing the same duplicate record
twice (`c8Results`) yields two issues with identical line and message. -/
theorem c8_counterexample_redundancy_issues_not_deduplicated :
    (aggregate c8Results).redundancy.issues.length = 2 ∧
    ¬ dupFreeLM ((aggregate c8Results).redundancy.issues) := by
  refine ⟨by decide, ?_⟩
  unfold dupFreeLM
  decide

/-- C8 (amended): `aggregate` is a pure function of the outcome list (equal
inputs give equal reports, hence identical issue counts), and its top-level
`issues` and `securityIssues` lists — the ones that pass through the
deduplicators — contain no two issues with identical `(line, message)`.
The structural sublists `complexityMetrics.issues` and `redundancy.issues`
are converted verbatim and are not covered by this guarantee. -/
theorem c8_aggregate_deterministic_and_top_level_dedup
    (results results' : List StageResult) (h : results = results') :
    aggregate results = aggregate results' ∧
    dupFreeLM (aggregate results).issues ∧
    dupFreeLM (aggregate results).securityIssues := by
  subst h
  refine ⟨rfl, ?_, ?_⟩
  · dsimp only [aggregate]
    exact List.Pairwise.sublist (List.filter_sublist _) (deduplicate_dupFree _)
  · dsimp only [aggregate]
    exact deduplicate_dupFree _

/-- Witness for the amended C8 at the concrete outcome list `c8Results`. -/
theorem c8_aggregate_deterministic_and_top_level_dedup_witness :
    c8Results = c8Results ∧
    (aggregate c8Results = aggregate c8Results ∧
      dupFreeLM (aggregate c8Results).issues ∧
      dupFreeLM (aggregate c8Results).securityIssues) :=
  ⟨rfl, c8_aggregate_deterministic_and_top_level_dedup c8Results c8Results rfl⟩

end CodeAnalyzer
